import Mathlib

/-!
Verification development for the MindCubes task-orchestration core
(`ai-engine`).  The Python sources under `ai-engine/core` and
`ai-engine/agents` are shallowly embedded: pure reads become Lean
functions, in-place mutation becomes explicit state passing, every
`datetime.utcnow()` call reads an explicit `Nat` clock that is advanced
between calls, exceptions become `Except`, and the opaque Python values
held in `input_data` / tool results are modelled by the inductive `Val`.
Definitions keep the source names.
-/

namespace MindCubes

/-- Opaque Python values (the `Any` occurring in `input_data`,
tool arguments and results). -/
inductive Val where
  | vnull : Val
  | vbool : Bool → Val
  | vnat : Nat → Val
  | vstr : String → Val
  | vlist : List Val → Val
  | vdict : List (String × Val) → Val

/-- Python truthiness (`if x:`) for the modelled values. -/
def truthy : Val → Bool
  | Val.vnull => false
  | Val.vbool b => b
  | Val.vnat n => n != 0
  | Val.vstr s => s != ""
  | Val.vlist xs => !xs.isEmpty
  | Val.vdict fs => !fs.isEmpty

/-- Substring test on char lists: does the second list start with the first
(`startswith`)?  Used to build the model of the Python `in` operator. -/
def startsWithSub : List Char → List Char → Bool
  | [], _ => true
  | _ :: _, [] => false
  | a :: as, b :: bs => a == b && startsWithSub as bs

/-- Occurrence of `sub` anywhere in a char list. -/
def containsSub (sub : List Char) : List Char → Bool
  | [] => sub.isEmpty
  | c :: rest => startsWithSub sub (c :: rest) || containsSub sub rest

/-- The Python substring operator `sub in hay`. -/
def strContains (hay sub : String) : Bool :=
  containsSub sub.data hay.data

/-- Python `str.lower()` as used by the agent (char-wise `toLower`,
spelled on the char list so the kernel can evaluate it; `String.map`
itself recurses on byte positions, which does not reduce). -/
def strLower (s : String) : String :=
  ⟨s.data.map Char.toLower⟩

/-- `task.py`: `TaskStatus`. -/
inductive TaskStatus where
  | pending : TaskStatus
  | in_progress : TaskStatus
  | completed : TaskStatus
  | failed : TaskStatus
  | cancelled : TaskStatus
deriving DecidableEq

/-- `task.py`: `TaskPriority`. -/
inductive TaskPriority where
  | low : TaskPriority
  | medium : TaskPriority
  | high : TaskPriority
  | critical : TaskPriority
deriving DecidableEq

/-- `task.py`: the `Task` pydantic model.  `task_id` and timestamps are
`Nat` (uuid and `datetime` values are only compared / stored). -/
structure Task where
  task_id : Nat
  title : String
  description : String
  agent_name : Option String
  status : TaskStatus
  priority : TaskPriority
  input_data : List (String × Val)
  output_data : Option Val
  error_message : Option String
  created_at : Nat
  started_at : Option Nat
  completed_at : Option Nat
  retry_count : Nat
  max_retries : Nat
  parent_task_id : Option Nat
  child_task_ids : List Nat

/-- `Task.start`: mark the task as started.  The source assigns
`datetime.utcnow()`; `now` is that clock reading. -/
def Task.start (t : Task) (now : Nat) : Task :=
  { t with status := TaskStatus.in_progress, started_at := some now }

/-- `Task.complete`: mark the task as completed. -/
def Task.complete (t : Task) (output_data : Val) (now : Nat) : Task :=
  { t with status := TaskStatus.completed, output_data := some output_data,
           completed_at := some now }

/-- `Task.fail`: mark the task as failed. -/
def Task.fail (t : Task) (error_message : String) (now : Nat) : Task :=
  { t with status := TaskStatus.failed, error_message := some error_message,
           completed_at := some now }

/-- `Task.cancel`: cancel the task. -/
def Task.cancel (t : Task) (now : Nat) : Task :=
  { t with status := TaskStatus.cancelled, completed_at := some now }

/-- `Task.retry`: attempt to retry the task; returns the Python `bool`
together with the mutated task. -/
def Task.retry (t : Task) : Bool × Task :=
  if t.retry_count < t.max_retries then
    (true, { t with retry_count := t.retry_count + 1,
                    status := TaskStatus.pending,
                    error_message := none })
  else
    (false, t)

/-- `TaskQueue.__init__`'s `_priority_order` dictionary. -/
def priority_order : TaskPriority → Nat
  | TaskPriority.critical => 0
  | TaskPriority.high => 1
  | TaskPriority.medium => 2
  | TaskPriority.low => 3

/-- Strict comparison under the sort key
`(priority_order[t.priority], t.created_at)` used by `get_next_task`. -/
def taskKeyLt (a b : Task) : Bool :=
  decide (priority_order a.priority < priority_order b.priority
    ∨ (priority_order a.priority = priority_order b.priority
        ∧ a.created_at < b.created_at))

/-- Non-strict comparison under the same composite key. -/
def taskKeyLe (a b : Task) : Bool :=
  decide (priority_order a.priority < priority_order b.priority
    ∨ (priority_order a.priority = priority_order b.priority
        ∧ a.created_at ≤ b.created_at))

/-- Head of the stable sort of `t :: l` under the composite key: the
replacement happens only on strictly smaller keys, so the earliest
minimal element is kept — exactly the element `pending_tasks[0]` that the
source's stable `list.sort` puts first. -/
def selectMin (t : Task) (l : List Task) : Task :=
  l.foldl (fun best u => if taskKeyLt u best then u else best) t

/-- `task.py`: `TaskQueue`.  The Python `dict` from `task_id` to `Task`
is insertion-ordered, hence a list of tasks keyed by `task_id`. -/
structure TaskQueue where
  tasks : List Task

/-- `TaskQueue.add_task`: `self.tasks[task.task_id] = task` — an upsert
that keeps the original position of an existing key. -/
def TaskQueue.add_task (q : TaskQueue) (t : Task) : TaskQueue :=
  if q.tasks.any (fun u => u.task_id == t.task_id) then
    ⟨q.tasks.map (fun u => if u.task_id == t.task_id then t else u)⟩
  else
    ⟨q.tasks ++ [t]⟩

/-- `TaskQueue.get_task`. -/
def TaskQueue.get_task (q : TaskQueue) (task_id : Nat) : Option Task :=
  q.tasks.find? (fun u => u.task_id == task_id)

/-- `TaskQueue.get_next_task`: filter the pending tasks, sort them by
`(priority_order, created_at)` (a stable sort) and return the first, or
`None` when nothing is pending.  The function only reads the queue. -/
def TaskQueue.get_next_task (q : TaskQueue) : Option Task :=
  match q.tasks.filter (fun t => t.status == TaskStatus.pending) with
  | [] => none
  | t :: rest => some (selectMin t rest)

/-- `TaskQueue.get_tasks_by_status`. -/
def TaskQueue.get_tasks_by_status (q : TaskQueue) (status : TaskStatus) : List Task :=
  q.tasks.filter (fun t => t.status == status)

/-- `base_tool.py`: `ToolParameter`. -/
structure ToolParameter where
  name : String
  type : String
  description : String
  required : Bool
  default : Option Val

/-- Result dictionary returned by `BaseTool.run` (keys `success`,
`result` / `error`, `tool`; the absent key of the two is `none`). -/
structure RunResult where
  success : Bool
  result : Option Val
  error : Option String
  tool : String

/-- `base_tool.py`: `BaseTool`.  The abstract `execute` coroutine of the
concrete subclass is a function field; an exception raised inside it is
an `Except.error` carrying Python's `str(e)`. -/
structure BaseTool where
  name : String
  description : String
  parameters : List ToolParameter
  usage_count : Nat
  success_count : Nat
  failure_count : Nat
  execute : List (String × Val) → Except String Val

/-- The missing-parameters set computed by `BaseTool._validate_parameters`:
required parameter names that are absent from the provided kwargs. -/
def missing_params (ps : List ToolParameter) (kwargs : List (String × Val)) : List String :=
  ((ps.filter (fun p => p.required)).map (fun p => p.name)).filter
    (fun n => !(kwargs.any (fun kv => kv.1 == n)))

/-- `BaseTool.run`: increment `usage_count`, validate parameters, call
`execute`, and convert every exception into a `success := false` result
(`_validate_parameters` raises `ValueError` into the same `except`).
The Python set-repr of the missing names is rendered as a joined list. -/
def BaseTool.run (t : BaseTool) (kwargs : List (String × Val)) : RunResult × BaseTool :=
  let t1 : BaseTool := { t with usage_count := t.usage_count + 1 }
  match missing_params t.parameters kwargs with
  | [] =>
    match t.execute kwargs with
    | Except.ok v =>
        ({ success := true, result := some v, error := none, tool := t.name },
         { t1 with success_count := t1.success_count + 1 })
    | Except.error e =>
        ({ success := false, result := none, error := some e, tool := t.name },
         { t1 with failure_count := t1.failure_count + 1 })
  | m =>
    ({ success := false, result := none,
       error := some ("Missing required parameters: " ++ String.intercalate (", ") m),
       tool := t.name },
     { t1 with failure_count := t1.failure_count + 1 })

/-- `BaseTool.reset_stats`. -/
def BaseTool.reset_stats (t : BaseTool) : BaseTool :=
  { t with usage_count := 0, success_count := 0, failure_count := 0 }

/-! ## Orchestrator (`orchestrator.py`)

`AgentOrchestrator.execute_task` mutates the picked task in place; the
queue's `dict` holds the same object, so every mutation is reflected in
the queue.  The embedding threads the queue and an explicit clock, and
additionally records the observed status transitions as a list of
`(before, after)` events so that the lifecycle claims can be stated. -/

/-- Behaviour of `agent.execute_task(task)` for one registered agent:
either a result dictionary or an exception text. -/
def AgentBeh : Type := Task → Except String Val

/-- Result of one `AgentOrchestrator.execute_task` call:  the mutated
task, whether the retry path resubmitted it, the emitted status
transitions, and the advanced clock. -/
structure ExecResult where
  task : Task
  resubmitted : Bool
  events : List (TaskStatus × TaskStatus)
  clock : Nat

/-- `self.agents` lookup (`get_agent`). -/
def lookupAgent (ags : List (String × AgentBeh)) (nm : String) : Option AgentBeh :=
  ags.lookup nm

/-- The `task.start()` / `agent.execute_task` / `complete`-or-`fail`-and-
`retry` body of `AgentOrchestrator.execute_task` once an agent has been
resolved. -/
def attempt_execute (beh : AgentBeh) (t : Task) (clk : Nat) : ExecResult :=
  let t1 := t.start clk
  match beh t1 with
  | Except.ok res =>
      { task := t1.complete res (clk + 1), resubmitted := false,
        events := [(t.status, TaskStatus.in_progress),
                   (TaskStatus.in_progress, TaskStatus.completed)],
        clock := clk + 2 }
  | Except.error e =>
      let t2 := t1.fail ("Task execution failed: " ++ e) (clk + 1)
      let r := t2.retry
      if r.1 then
        { task := r.2, resubmitted := true,
          events := [(t.status, TaskStatus.in_progress),
                     (TaskStatus.in_progress, TaskStatus.failed),
                     (TaskStatus.failed, TaskStatus.pending)],
          clock := clk + 2 }
      else
        { task := t2, resubmitted := false,
          events := [(t.status, TaskStatus.in_progress),
                     (TaskStatus.in_progress, TaskStatus.failed)],
          clock := clk + 2 }

/-- `AgentOrchestrator.execute_task`: resolve the agent (failing the task
directly when the named agent is unknown or no agent is registered),
then run `attempt_execute`. -/
def orch_execute_task (ags : List (String × AgentBeh)) (t : Task) (clk : Nat) : ExecResult :=
  match t.agent_name with
  | some nm =>
    match lookupAgent ags nm with
    | none =>
        { task := t.fail ("Agent '" ++ nm ++ "' not found") clk,
          resubmitted := false,
          events := [(t.status, TaskStatus.failed)], clock := clk + 1 }
    | some beh => attempt_execute beh t clk
  | none =>
    match ags with
    | [] =>
        { task := t.fail ("No agents available") clk, resubmitted := false,
          events := [(t.status, TaskStatus.failed)], clock := clk + 1 }
    | (nm, beh) :: _ => attempt_execute beh { t with agent_name := some nm } clk

/-- System state of the orchestrator run: the queue and the clock. -/
structure SysState where
  queue : TaskQueue
  clock : Nat

/-- Write the mutated task back over the queue entry with the same id
(in Python the entry is the same object). -/
def update_task (ts : List Task) (t : Task) : List Task :=
  ts.map (fun u => if u.task_id == t.task_id then t else u)

/-- One admission of the dispatch loop in `AgentOrchestrator.start`:
pop the next pending task and execute it; a retry-resubmission via
`submit_task` re-adds the same id, which the queue already holds. -/
def dispatchStep (ags : List (String × AgentBeh)) (st : SysState) :
    SysState × List (TaskStatus × TaskStatus) :=
  match st.queue.get_next_task with
  | none => (st, [])
  | some t =>
    let r := orch_execute_task ags t st.clock
    ({ queue := ⟨update_task st.queue.tasks r.task⟩, clock := r.clock }, r.events)

/-- External interactions with the orchestrator that affect tasks:
`submit_task` and one iteration of the dispatch loop. -/
inductive Act where
  | submit : Task → Act
  | dispatch : Act

/-- Apply one action. -/
def runAct (ags : List (String × AgentBeh)) (a : Act) (st : SysState) :
    SysState × List (TaskStatus × TaskStatus) :=
  match a with
  | Act.submit t => ({ st with queue := st.queue.add_task t }, [])
  | Act.dispatch => dispatchStep ags st

/-- Run a whole schedule of actions, collecting every status transition
observed on any task. -/
def runTrace (ags : List (String × AgentBeh)) : List Act → SysState →
    SysState × List (TaskStatus × TaskStatus)
  | [], st => (st, [])
  | a :: rest, st =>
    let r1 := runAct ags a st
    let r2 := runTrace ags rest r1.1
    (r2.1, r1.2 ++ r2.2)

/-- Modelled from the spec: the transition edges of the §4.6 state
machine — `Pending → InProgress → (Completed | Failed | Cancelled)` with
`Failed → Pending` via retry.  Used only to compare the spec's claim
with the transitions the code produces. -/
def specEdge : TaskStatus → TaskStatus → Bool
  | TaskStatus.pending, TaskStatus.in_progress => true
  | TaskStatus.in_progress, TaskStatus.completed => true
  | TaskStatus.in_progress, TaskStatus.failed => true
  | TaskStatus.in_progress, TaskStatus.cancelled => true
  | TaskStatus.failed, TaskStatus.pending => true
  | _, _ => false

/-- The edges the orchestrator code actually produces: the spec's edges
plus the direct `Pending → Failed` taken on a routing failure. -/
def implEdge (a b : TaskStatus) : Bool :=
  specEdge a b || (a == TaskStatus.pending && b == TaskStatus.failed)

/-! ## MasterAgent (`agents/master_agent.py`)

Keyword matching is the Python substring operator and is embedded
directly; `re.search` calls go through a `RegexEngine` oracle because
regular-expression semantics are outside the shallow embedding.  The
oracle also provides the capture groups the source reads. -/

/-- One entry of the module-level `INTENT_PATTERNS` dictionary. -/
structure IntentDef where
  name : String
  keywords : List String
  patterns : List String
  description : String
  needs_details : Bool
  required_info : List String

/-- `INTENT_PATTERNS["todo"]`. -/
def todoIntent : IntentDef :=
  { name := "todo",
    keywords := ["görev", "task", "todo", "yapılacak", "yapılacaklar", "görev çıkar",
      "görev oluştur", "task extract", "action item", "to-do", "iş listesi",
      "görev ekle", "yapılacaklar listesi", "görevleri çıkar", "görevleri bul",
      "aksiyon", "eylem", "görev listesi"],
    patterns := ["görev.*çıkar", "task.*extract", "görev.*oluştur", "todo.*create",
      "yapılacak.*bul", "yapılacak.*çıkar", "görev.*ekle"],
    description := "görev oluşturma", needs_details := false, required_info := [] }

/-- `INTENT_PATTERNS["calendar"]`. -/
def calendarIntent : IntentDef :=
  { name := "calendar",
    keywords := ["takvim", "calendar", "randevu", "toplantı", "meeting", "etkinlik",
      "event", "schedule", "planla", "rezervasyon", "ajanda",
      "hatırlat", "reminder", "buluşma"],
    patterns := ["takvim.*ekle", "calendar.*add", "toplantı.*oluştur", "meeting.*create",
      "randevu.*al", "etkinlik.*planla", "takvime.*kaydet"],
    description := "takvim etkinliği", needs_details := true,
    required_info := ["etkinlik adı", "tarih", "saat"] }

/-- `INTENT_PATTERNS["drive"]`. -/
def driveIntent : IntentDef :=
  { name := "drive",
    keywords := ["kaydet", "save", "dosya", "file", "drive", "onedrive", "google drive",
      "bulut", "cloud", "yükle", "upload", "depolama", "storage", "sakla",
      "yedekle", "backup"],
    patterns := ["dosya.*kaydet", "file.*save", "drive.*yükle", "cloud.*upload",
      "bulut.*kaydet", "dosya.*sakla", "dosyayı.*yükle"],
    description := "dosya kaydetme", needs_details := false, required_info := [] }

/-- `INTENT_PATTERNS["mail_categorization"]`. -/
def mailCategorizationIntent : IntentDef :=
  { name := "mail_categorization",
    keywords := ["kategorile", "categorize", "sınıflandır", "organize", "düzenle",
      "etiketle", "label", "mail organize", "posta düzenle", "inbox"],
    patterns := ["mail.*kategorile", "email.*categorize", "posta.*düzenle",
      "inbox.*organize"],
    description := "e-posta kategorilendirme", needs_details := false, required_info := [] }

/-- `INTENT_PATTERNS["mail_prioritizing"]`. -/
def mailPrioritizingIntent : IntentDef :=
  { name := "mail_prioritizing",
    keywords := ["öncelik", "priority", "önemli", "important", "acil", "urgent",
      "sırala", "sort", "önceliklendir", "prioritize",
      "öncelik ata", "öncelik ver", "acil olarak işaretle", "sadece önemli mailleri göster",
      "önemli mailleri listele", "acil mailleri göster", "high priority", "low priority",
      "show urgent", "show important", "highlight important", "önemli mailleri vurgula",
      "acil mailleri filtrele"],
    patterns := ["mail.*öncelik", "email.*priority", "posta.*sırala",
      "önemli.*mail", "öncelik.*ata", "öncelik.*ver", "acil.*işaretle",
      "sadece.*önemli.*mail", "önemli.*mailleri.*listele", "acil.*mailleri.*göster",
      "high.*priority", "low.*priority", "show.*urgent", "show.*important",
      "highlight.*important", "acil.*mailleri.*filtrele"],
    description := "e-posta önceliklendirme", needs_details := false, required_info := [] }

/-- `INTENT_PATTERNS`, in declaration order. -/
def intent_patterns : List IntentDef :=
  [todoIntent, calendarIntent, driveIntent, mailCategorizationIntent, mailPrioritizingIntent]

/-- Oracle for the `re` module calls the agent performs: `search` is
`re.search(pattern, text) is not None`; the remaining fields return the
capture groups of the three concrete patterns in
`extract_event_details`. -/
structure RegexEngine where
  search : String → String → Bool
  searchTime2 : String → Option (String × String)
  searchTime1 : String → Option String
  searchDate : String → Option String

/-- The intent-scoring loop body of `_detect_intent_keywords`:
`+1` per keyword contained in the lowered message, `+2` per matching
pattern. -/
def intent_score (rx : String → String → Bool) (ml : String) (d : IntentDef) : Nat :=
  let s1 := d.keywords.foldl (fun s k => if strContains ml k then s + 1 else s) 0
  d.patterns.foldl (fun s p => if rx p ml then s + 2 else s) s1

/-- Loop body of the best-intent fold in `_detect_intent_keywords`. -/
def bestStep (f : IntentDef → Nat) (acc : Option String × Nat) (d : IntentDef) :
    Option String × Nat :=
  if acc.2 < f d then (some d.name, f d) else acc

/-- `MasterAgent._detect_intent_keywords`: keep the first intent whose
score strictly exceeds the running best; return it when the best score
is positive. -/
def detect_intent_keywords (rx : String → String → Bool) (intents : List IntentDef)
    (message : String) : Option String :=
  let ml := strLower message
  let best := intents.foldl (bestStep (intent_score rx ml)) ((none : Option String), 0)
  if 0 < best.2 then best.1 else none

/-- `extract_event_details`'s `date_keywords` dictionary (keys map to
themselves). -/
def date_keywords : List String :=
  ["bugün", "yarın", "öbür gün", "pazartesi", "salı", "çarşamba",
   "perşembe", "cuma", "cumartesi", "pazar"]

/-- The `title`/`date`/`time` dictionary built by
`extract_event_details`; `title` is declared but never assigned in the
source. -/
structure EventDetails where
  title : Option String
  date : Option String
  time : Option String

/-- `extract_event_details`: the first time pattern yields `"h:mm"`, the
second `"h:00"`; a date keyword contained in the lowered message is
picked first and an explicit date match overrides it. -/
def extract_event_details (rx : RegexEngine) (message : String) : EventDetails :=
  let time :=
    match rx.searchTime2 message with
    | some hm => some (hm.1 ++ ":" ++ hm.2)
    | none =>
      match rx.searchTime1 message with
      | some h => some (h ++ ":00")
      | none => none
  let dateKw := date_keywords.find? (fun k => strContains (strLower message) k)
  let date :=
    match rx.searchDate message with
    | some d => some d
    | none => dateKw
  { title := none, date := date, time := time }

/-- `_check_missing_details`'s `title_indicators`. -/
def title_indicators : List String :=
  ["toplantı", "meeting", "randevu", "etkinlik", "görüşme", "buluşma"]

/-- Python `len(message.split())`: maximal whitespace-free words. -/
def word_count (message : String) : Nat :=
  ((message.data.splitOnP (fun c => c.isWhitespace)).filter
    (fun w => !w.isEmpty)).length

/-- `MasterAgent._check_missing_details`: collect the missing calendar
slots in source order (date, time, title) and return the clarifying
question when any is missing; ask for a file for the drive workflow. -/
def check_missing_details (rx : RegexEngine) (intent_name : String) (message : String)
    (has_file : Bool) : Option String :=
  let calendarQ : Option String :=
    if intent_name == "calendar_workflow" then
      let details := extract_event_details rx message
      let missing : List String :=
        (if details.date.isNone then ["tarih (örn: yarın, pazartesi, 15 Aralık)"] else [])
        ++ (if details.time.isNone then ["saat (örn: 14:00)"] else [])
        ++ (if !(title_indicators.any (fun ind => strContains (strLower message) ind))
               && word_count message < 5
            then ["etkinlik başlığı (ne için?)"] else [])
      if !missing.isEmpty then
        some ("Takvime eklemek için şu bilgilere ihtiyacım var:\n• "
          ++ String.intercalate ("\n• ") missing ++ "\n\nBu bilgileri verir misiniz?")
      else none
    else none
  match calendarQ with
  | some q => some q
  | none =>
    if intent_name == "drive_workflow" && !has_file then
      some ("Buluta kaydetmek için bir dosya eklemeniz gerekiyor. Lütfen dosyanızı yükleyin.")
    else none

/-- `_is_datetime_question`'s `date_patterns`. -/
def dt_date_patterns : List String :=
  ["bugün günlerden ne", "bugün günlerden", "bugün hangi gün", "bugün ne gün",
   "bugünün tarihi", "tarih nedir", "tarih ne", "şu an hangi gün", "hangi gündeyiz",
   "hangi tarihteyiz", "hangi gün", "what day is it", "today's date", "what is the date"]

/-- `_is_datetime_question`'s `time_patterns`. -/
def dt_time_patterns : List String :=
  ["saat kaç", "şu an saat kaç", "şuan saat kaç", "şu an saat",
   "what time is it", "current time"]

/-- `MasterAgent._is_datetime_question`. -/
def is_datetime_question (message : String) : Bool :=
  let msg := strLower message
  (dt_date_patterns ++ dt_time_patterns).any (fun p => strContains msg p)

/-- `MasterAgent._default_system_prompt`. -/
def default_system_prompt : String :=
  "Sen MindCubes platformunun AI asistanısın. Kullanıcılarla doğal ve samimi bir şekilde sohbet ediyorsun.\n\nGörevlerin:\n- Görev oluşturma (Microsoft To-Do)\n- Takvim etkinlikleri oluşturma\n- Dosyaları buluta kaydetme\n- E-posta yönetimi\n\nÖnemli kurallar:\n- Bir işlem yapmadan önce gerekli bilgileri sor\n- Takvim için: etkinlik adı, tarih ve saat gerekli\n- Dosya kaydetme için: dosya ekli olmalı\n- Kullanıcının dilinde (Türkçe/İngilizce) yanıt ver\n- Kısa ve öz ol\n- Samimi ama profesyonel ol"

/-- The last `n` entries of a list (Python `l[-n:]`). -/
def lastN (n : Nat) (l : List α) : List α :=
  l.drop (l.length - n)

/-- `MasterAgent._build_conversation_context` over `(role, content)`
turns. -/
def build_conversation_context (history : List (String × String)) : String :=
  if history.isEmpty then "" else
  String.intercalate ("\n") ((lastN 6 history).map
    (fun m => if m.1 == "user" then "Kullanıcı: " ++ m.2 else "Asistan: " ++ m.2))

/-- `MasterAgent`: the `_tool_map` (name-ordered as constructed), the
generation backend `llm_provider.generate` as an oracle taking prompt
and system prompt, and the `_current_model` attribute `process`
assigns. -/
structure MasterAgent where
  tool_map : List (String × BaseTool)
  llm : String → String → Except String String
  current_model : Option String

/-- The `context` dictionary `MasterAgent.process` reads. -/
structure Context where
  file_data : Option Val
  user_id : String
  history : List (String × String)
  model : Option String

/-- Replace a tool in the map after a `run` mutated its counters. -/
def updateToolMap (m : List (String × BaseTool)) (nm : String) (t : BaseTool) :
    List (String × BaseTool) :=
  m.map (fun kv => if kv.1 == nm then (nm, t) else kv)

/-- `MasterAgent.execute_tool`: look the tool up and `run` it with the
`chat_input` / `user_id` / `file_data` kwargs (a missing upload is
Python `None`).  `run` never raises, so the surrounding `except` is
dead in the model. -/
def MasterAgent.execute_tool (ag : MasterAgent) (tool_name chat_input user_id : String)
    (file_data : Option Val) : RunResult × MasterAgent :=
  match ag.tool_map.lookup tool_name with
  | none =>
      ({ success := false, result := none,
         error := some ("'" ++ tool_name ++ "' aracı bulunamadı"), tool := tool_name }, ag)
  | some tool =>
    let r := BaseTool.run tool
      [("chat_input", Val.vstr chat_input), ("user_id", Val.vstr user_id),
       ("file_data", match file_data with | some v => v | none => Val.vnull)]
    (r.1, { ag with tool_map := updateToolMap ag.tool_map tool_name r.2 })

/-- `MasterAgent.detect_intent`: map the keyword intent to its
`*_workflow` tool and require the tool to be registered. -/
def MasterAgent.detect_intent (ag : MasterAgent) (rx : RegexEngine) (message : String) :
    Option (String × IntentDef) :=
  match detect_intent_keywords rx.search intent_patterns message with
  | some kw =>
    match intent_patterns.find? (fun d => d.name == kw) with
    | some d =>
      let tool_name := kw ++ "_workflow"
      if (ag.tool_map.lookup tool_name).isSome then some (tool_name, d) else none
    | none => none
  | none => none

/-- Python `str()` of a modelled value, used where the source
stringifies payload members. -/
def val_str : Val → String
  | Val.vnull => "None"
  | Val.vbool b => if b then "True" else "False"
  | Val.vnat n => toString n
  | Val.vstr s => s
  | Val.vlist xs => "[" ++ String.intercalate (", ") (xs.attach.map (fun v => val_str v.1)) ++ "]"
  | Val.vdict fs => "\x7b" ++ String.intercalate (", ")
      (fs.attach.map (fun kv => kv.1.1 ++ ": " ++ val_str kv.1.2)) ++ "\x7d"
decreasing_by
  · have := List.sizeOf_lt_of_mem v.2; simp at this ⊢; omega
  · have h1 := List.sizeOf_lt_of_mem kv.2
    rcases kv with ⟨⟨k1, v1⟩, hmem⟩
    simp at h1 ⊢
    omega

/-- `_generate_organic_response`'s `action_descriptions`. -/
def action_descriptions : List (String × String) :=
  [("todo_workflow", "görevler To-Do listesine eklendi"),
   ("calendar_workflow", "etkinlik takvime eklendi"),
   ("drive_workflow", "dosya bulut depolamaya kaydedildi"),
   ("mail_categorization_workflow", "e-postalar kategorilendi"),
   ("mail_prioritizing_workflow", "e-postalar önceliklendirildi")]

/-- The per-task name used in `_generate_organic_response`'s details:
`t.get('title', str(t)) if isinstance(t, dict) else str(t)`. -/
def organic_task_name (t : Val) : String :=
  match t with
  | Val.vdict fs =>
    match fs.lookup ("title") with
    | some v => val_str v
    | none => val_str (Val.vdict fs)
  | v => val_str v

/-- `MasterAgent._generate_organic_response`. -/
def generate_organic_response (ag : MasterAgent) (tool_name : String) (r : RunResult)
    (user_input : String) (history : List (String × String)) : String :=
  let workflow_result := match r.result with | some v => v | none => Val.vdict []
  let action := ((action_descriptions.lookup tool_name).getD ("işlem tamamlandı"))
  let details :=
    match workflow_result with
    | Val.vdict fs =>
      match fs.lookup ("tasks") with
      | some (Val.vlist ts) =>
        if 0 < ts.length then
          "Oluşturulan görevler: "
            ++ String.intercalate (", ") ((ts.take 3).map organic_task_name)
        else ""
      | _ => ""
    | _ => ""
  let conv_context := build_conversation_context history
  let prompt :=
    "Kullanıcının isteği başarıyla tamamlandı. Kısa ve doğal bir yanıt yaz.\n\nÖnceki konuşma:\n"
    ++ conv_context ++ "\n\nKullanıcının mesajı: \"" ++ user_input
    ++ "\"\nYapılan işlem: " ++ action ++ "\n"
    ++ (if details != "" then "Detaylar: " ++ details else "")
    ++ "\n\nKurallar:\n- Başarı işareti (✅) ile başla\n- Maksimum 2 cümle\n- Samimi ve doğal ol\n- Markdown kullanma (**, * vb.)\n- Ne yapıldığını kısaca açıkla"
  match ag.llm prompt ("Kısa ve doğal yanıtlar ver. Markdown formatı kullanma.") with
  | Except.ok resp0 =>
    let resp := ((resp0.trim).replace ("**") ("")).replace ("*") ("")
    if !(resp.startsWith ("✅")) then "✅ " ++ resp else resp
  | Except.error _ => "✅ İşlem tamamlandı - " ++ action ++ "."

/-- `MasterAgent._generate_conversation_response`. -/
def generate_conversation_response (ag : MasterAgent) (user_input : String)
    (history : List (String × String)) : String :=
  let conv_context := build_conversation_context history
  let prompt :=
    "Kullanıcıyla sohbet et.\n\nÖnceki konuşma:\n" ++ conv_context
    ++ "\n\nKullanıcının mesajı: \"" ++ user_input
    ++ "\"\n\nYapabileceklerin:\n- Görev oluşturma (To-Do)\n- Takvim etkinliği ekleme\n- Dosya kaydetme (bulut)\n- E-posta yönetimi\n\nKurallar:\n- Doğal ve samimi ol\n- Kısa cevap ver (1-3 cümle)\n- Markdown kullanma (**, * vb.)\n- Eğer yardım istiyorsa, nasıl yardımcı olabileceğini söyle"
  match ag.llm prompt default_system_prompt with
  | Except.ok resp0 => ((resp0.trim).replace ("**") ("")).replace ("*") ("")
  | Except.error _ =>
    "Size nasıl yardımcı olabilirim? Görev oluşturma, takvim yönetimi veya dosya kaydetme konularında yardımcı olabilirim."

/-- A truthy string lookup on a payload dictionary (`payload.get(k)`
followed by a Python truthiness test), stringified for the reply. -/
def payload_text (fs : List (String × Val)) (k : String) : Option String :=
  match fs.lookup k with
  | some v => if truthy v then some (val_str v) else none
  | none => none

/-- The datetime special case at the top of `MasterAgent.process`:
run the `current_datetime` tool and build the reply from its payload;
any structural failure falls through (`none`) with the tool's counters
already advanced. -/
def datetime_branch (ag : MasterAgent) : Option String × MasterAgent :=
  match ag.tool_map.lookup ("current_datetime") with
  | none => (none, ag)
  | some dtool =>
    let rr := BaseTool.run dtool []
    let ag1 := { ag with tool_map := updateToolMap ag.tool_map ("current_datetime") rr.2 }
    if rr.1.success then
      let rv := match rr.1.result with | some v => v | none => Val.vnull
      let payload := if truthy rv then rv else Val.vdict []
      match payload with
      | Val.vdict fs =>
        match payload_text fs ("natural_text_tr") with
        | some text => (some text, ag1)
        | none =>
          match payload_text fs ("natural_text") with
          | some text => (some text, ag1)
          | none =>
            match payload_text fs ("date"), payload_text fs ("weekday") with
            | some date, some weekday =>
              let base := "Bugün " ++ weekday ++ ", " ++ date ++ "."
              match payload_text fs ("time") with
              | some time_val => (some (base ++ " Şu an saat " ++ time_val ++ "."), ag1)
              | none => (some base, ag1)
            | _, _ => (none, ag1)
      | _ => (none, ag1)
    else (none, ag1)

/-- `MasterAgent.process`: record the requested model, answer datetime
questions via the `current_datetime` tool, otherwise detect the intent,
ask for missing details, dispatch the workflow tool and shape the reply,
or fall back to open conversation. -/
def MasterAgent.process (ag : MasterAgent) (rx : RegexEngine) (user_input : String)
    (ctx : Context) : String × MasterAgent :=
  let has_file := ctx.file_data.isSome
  let ag0 : MasterAgent := { ag with current_model := ctx.model }
  let afterDt : Option String × MasterAgent :=
    if is_datetime_question user_input then datetime_branch ag0 else (none, ag0)
  match afterDt with
  | (some text, ag1) => (text, ag1)
  | (none, ag1) =>
    match ag1.detect_intent rx user_input with
    | some (tool_name, _intent_data) =>
      match check_missing_details rx tool_name user_input has_file with
      | some missing_details => (missing_details, ag1)
      | none =>
        let re := ag1.execute_tool tool_name user_input ctx.user_id ctx.file_data
        let r := re.1
        let ag2 := re.2
        if r.success then
          let workflow_result := match r.result with | some v => v | none => Val.vnull
          if !(truthy workflow_result) then
            ("⚠️ İşlem başlatıldı ancak sonuç alınamadı. Lütfen n8n'de '" ++ tool_name
              ++ "' workflow'unun aktif olduğundan emin olun.", ag2)
          else
            (generate_organic_response ag2 tool_name r user_input ctx.history, ag2)
        else
          let error := (r.error.getD ("Bilinmeyen hata"))
          if strContains error ("Connection") || strContains error ("connection")
              || strContains error ("ECONNREFUSED") then
            ("❌ n8n servisine bağlanılamadı. Lütfen n8n'in çalıştığından emin olun.", ag2)
          else if strContains error ("404") || strContains (strLower error) ("not found") then
            ("❌ Workflow bulunamadı. '" ++ tool_name
              ++ "' için webhook yapılandırmasını kontrol edin.", ag2)
          else if strContains (strLower error) ("timeout") then
            ("❌ İşlem zaman aşımına uğradı. Lütfen tekrar deneyin.", ag2)
          else
            ("❌ İşlem sırasında hata oluştu: " ++ error, ag2)
    | none => (generate_conversation_response ag1 user_input ctx.history, ag1)

/-! ## Concrete instances used in the example theorems below -/

/-- A fresh pending task with default field values
(`priority = MEDIUM`, `max_retries = 3`). -/
def baseTask : Task :=
  { task_id := 1, title := "t", description := "d", agent_name := none,
    status := TaskStatus.pending, priority := TaskPriority.medium,
    input_data := [], output_data := none, error_message := none,
    created_at := 0, started_at := none, completed_at := none,
    retry_count := 0, max_retries := 3, parent_task_id := none,
    child_task_ids := [] }

/-- A pending task naming an agent that is never registered. -/
def cxTask : Task := { baseTask with agent_name := some ("ghost") }

/-- A high-priority task created later than `baseTask`. -/
def highTask : Task :=
  { baseTask with task_id := 2, priority := TaskPriority.high, created_at := 5 }

/-- A tool whose `execute` raises an exception with an empty message
(`raise ValueError()` in Python has `str(e) == ""`). -/
def c2Tool : BaseTool :=
  { name := "t", description := "", parameters := [], usage_count := 0,
    success_count := 0, failure_count := 0,
    execute := fun _ => Except.error ("") }

/-- A tool with one required parameter `x` and a succeeding `execute`. -/
def reqTool : BaseTool :=
  { name := "w", description := "",
    parameters := [{ name := "x", type := "string", description := "",
                     required := true, default := none }],
    usage_count := 0, success_count := 0, failure_count := 0,
    execute := fun _ => Except.ok (Val.vnull) }

/-- A tool with no parameters and a succeeding `execute`. -/
def c6Tool : BaseTool :=
  { name := "t6", description := "", parameters := [], usage_count := 0,
    success_count := 0, failure_count := 0,
    execute := fun _ => Except.ok (Val.vstr ("ok")) }

/-- One registered agent whose execution always raises. -/
def ags5 : List (String × AgentBeh) := [(("A"), fun _ => Except.error ("boom"))]

/-- A task for that agent with a retry budget of one. -/
def t5 : Task := { baseTask with agent_name := some ("A"), max_retries := 1 }

/-- Initial state holding only `t5`, clock at 0. -/
def st5 : SysState := ⟨⟨[t5]⟩, 0⟩

/-- A failed task whose retry budget is exhausted. -/
def exhaustedTask : Task :=
  { baseTask with status := TaskStatus.failed,
                  error_message := some ("e"), retry_count := 3 }

/-- A cancelled task (used to show `retry` ignores the status). -/
def cancelledTask : Task := { baseTask with status := TaskStatus.cancelled }

/-- Regex oracle reporting no match anywhere. -/
def rx0 : String → String → Bool := fun _ _ => false

/-- Regex engine reporting no match and no captures anywhere. -/
def rxNone : RegexEngine :=
  { search := rx0, searchTime2 := fun _ => none,
    searchTime1 := fun _ => none, searchDate := fun _ => none }

/-- A registered calendar workflow tool. -/
def wCalTool : BaseTool :=
  { name := "calendar_workflow", description := "", parameters := [],
    usage_count := 0, success_count := 0, failure_count := 0,
    execute := fun _ => Except.ok (Val.vstr ("ok")) }

/-- A master agent holding only the calendar workflow tool. -/
def wAgent : MasterAgent :=
  { tool_map := [(("calendar_workflow"), wCalTool)],
    llm := fun _ _ => Except.ok ("hi"), current_model := none }

/-- A request context with no file, no history and no model override. -/
def wCtx : Context :=
  { file_data := none, user_id := "anonymous", history := [], model := none }

/-! ## Helper lemmas -/

theorem taskKeyLe_refl (a : Task) : taskKeyLe a a = true := by
  simp [taskKeyLe]

theorem taskKeyLt_le {a b : Task} (h : taskKeyLt a b = true) : taskKeyLe a b = true := by
  simp only [taskKeyLt, taskKeyLe, decide_eq_true_eq] at h ⊢
  omega

theorem taskKeyLt_false_le {a b : Task} (h : taskKeyLt a b = false) :
    taskKeyLe b a = true := by
  simp only [taskKeyLt, decide_eq_false_iff_not] at h
  simp only [taskKeyLe, decide_eq_true_eq]
  omega

theorem taskKeyLe_trans {a b c : Task} (h1 : taskKeyLe a b = true)
    (h2 : taskKeyLe b c = true) : taskKeyLe a c = true := by
  simp only [taskKeyLe, decide_eq_true_eq] at h1 h2 ⊢
  omega

theorem selectMin_mem (l : List Task) : ∀ t : Task, selectMin t l = t ∨ selectMin t l ∈ l := by
  induction l with
  | nil => intro t; left; rfl
  | cons a l ih =>
    intro t
    have hstep : selectMin t (a :: l) = selectMin (if taskKeyLt a t then a else t) l := rfl
    rw [hstep]
    by_cases h : taskKeyLt a t = true
    · rw [if_pos h]
      rcases ih a with h1 | h1
      · right; rw [h1]; exact List.mem_cons_self a l
      · right; exact List.mem_cons_of_mem a h1
    · rw [if_neg h]
      rcases ih t with h1 | h1
      · left; exact h1
      · right; exact List.mem_cons_of_mem a h1

theorem selectMin_le (l : List Task) : ∀ t u : Task, (u = t ∨ u ∈ l) →
    taskKeyLe (selectMin t l) u = true := by
  induction l with
  | nil =>
    intro t u hu
    rcases hu with h | h
    · subst h; exact taskKeyLe_refl u
    · exact absurd h (List.not_mem_nil u)
  | cons a l ih =>
    intro t u hu
    have hstep : selectMin t (a :: l) = selectMin (if taskKeyLt a t then a else t) l := rfl
    have hself : taskKeyLe (selectMin (if taskKeyLt a t then a else t) l)
        (if taskKeyLt a t then a else t) = true :=
      ih (if taskKeyLt a t then a else t) (if taskKeyLt a t then a else t) (Or.inl rfl)
    rw [hstep]
    rcases hu with h | h
    · -- u = t
      subst h
      by_cases hlt : taskKeyLt a u = true
      · rw [if_pos hlt] at hself ⊢
        exact taskKeyLe_trans hself (taskKeyLt_le hlt)
      · rw [if_neg hlt] at hself ⊢
        exact hself
    · rcases List.mem_cons.mp h with h1 | h1
      · -- u = a
        subst h1
        by_cases hlt : taskKeyLt u t = true
        · rw [if_pos hlt] at hself ⊢
          exact hself
        · rw [if_neg hlt] at hself ⊢
          have hf2 : taskKeyLt u t = false := by
            revert hlt; cases taskKeyLt u t <;> simp
          exact taskKeyLe_trans hself (taskKeyLt_false_le hf2)
      · -- u ∈ l
        exact ih (if taskKeyLt a t then a else t) u (Or.inr h1)

theorem mem_filter_pending {q : TaskQueue} {x : Task}
    (h : x ∈ q.tasks.filter (fun t => t.status == TaskStatus.pending)) :
    x ∈ q.tasks ∧ x.status = TaskStatus.pending := by
  have h1 := List.mem_filter.mp h
  exact ⟨h1.1, by have := h1.2; simpa using this⟩

theorem getNext_pending_mem {q : TaskQueue} {t : Task}
    (h : q.get_next_task = some t) :
    t ∈ q.tasks ∧ t.status = TaskStatus.pending := by
  unfold TaskQueue.get_next_task at h
  cases hf : q.tasks.filter (fun t => t.status == TaskStatus.pending) with
  | nil => rw [hf] at h; exact absurd h (by simp)
  | cons a rest =>
    rw [hf] at h
    have ht : t = selectMin a rest := by
      have := Option.some.inj h; exact this.symm
    have hm : t ∈ a :: rest := by
      rcases selectMin_mem rest a with h1 | h1
      · rw [ht, h1]; exact List.mem_cons_self a rest
      · rw [ht]; exact List.mem_cons_of_mem a h1
    rw [← hf] at hm
    exact mem_filter_pending hm

theorem getNext_le {q : TaskQueue} {t : Task} (h : q.get_next_task = some t) :
    ∀ u ∈ q.tasks, u.status = TaskStatus.pending → taskKeyLe t u = true := by
  intro u hu hup
  unfold TaskQueue.get_next_task at h
  cases hf : q.tasks.filter (fun t => t.status == TaskStatus.pending) with
  | nil => rw [hf] at h; exact absurd h (by simp)
  | cons a rest =>
    rw [hf] at h
    have ht : t = selectMin a rest := (Option.some.inj h).symm
    have humem : u ∈ a :: rest := by
      rw [← hf]
      exact List.mem_filter.mpr ⟨hu, by simp [hup]⟩
    rw [ht]
    rcases List.mem_cons.mp humem with h1 | h1
    · exact selectMin_le rest a u (Or.inl h1)
    · exact selectMin_le rest a u (Or.inr h1)

theorem getNext_none_iff (q : TaskQueue) :
    q.get_next_task = none ↔ ∀ t ∈ q.tasks, ¬ t.status = TaskStatus.pending := by
  unfold TaskQueue.get_next_task
  cases hf : q.tasks.filter (fun t => t.status == TaskStatus.pending) with
  | nil =>
    refine iff_of_true rfl ?_
    intro t ht hp
    have : t ∈ q.tasks.filter (fun t => t.status == TaskStatus.pending) :=
      List.mem_filter.mpr ⟨ht, by simp [hp]⟩
    rw [hf] at this
    exact absurd this (List.not_mem_nil t)
  | cons a rest =>
    refine iff_of_false (by simp) ?_
    intro hall
    have : a ∈ q.tasks.filter (fun t => t.status == TaskStatus.pending) := by
      rw [hf]; exact List.mem_cons_self a rest
    have h1 := mem_filter_pending this
    exact hall a h1.1 h1.2

/-! ## C1: `get_next_task` selects the minimal pending task -/

/-- C1.  Among the pending tasks of any queue, `get_next_task` returns a
pending member minimal under the composite key (priority rank ascending
with Critical = 0 … Low = 3, then `created_at` ascending), and returns
`none` exactly when no task is pending.  The embedding is a pure
function of the queue — the source builds and sorts a fresh list, so
neither the queue nor any task status is mutated. -/
theorem getNext_spec (q : TaskQueue) :
    (q.get_next_task = none ↔ ∀ t ∈ q.tasks, ¬ t.status = TaskStatus.pending)
    ∧ ∀ t : Task, q.get_next_task = some t →
        t ∈ q.tasks ∧ t.status = TaskStatus.pending
        ∧ ∀ u ∈ q.tasks, u.status = TaskStatus.pending → taskKeyLe t u = true := by
  refine ⟨getNext_none_iff q, ?_⟩
  intro t h
  exact ⟨(getNext_pending_mem h).1, (getNext_pending_mem h).2, getNext_le h⟩

/-- Witness for C1 at a concrete two-task queue: the high-priority task
is returned even though it was created later. -/
theorem getNext_spec_witness :
    (⟨[baseTask, highTask]⟩ : TaskQueue).get_next_task = some highTask
    ∧ highTask.status = TaskStatus.pending
    ∧ taskKeyLe highTask baseTask = true := by
  have h : (⟨[baseTask, highTask]⟩ : TaskQueue).get_next_task = some highTask := rfl
  have h2 := (getNext_spec ⟨[baseTask, highTask]⟩).2 highTask h
  refine ⟨h, h2.2.1, ?_⟩
  exact h2.2.2 baseTask (by simp) (by decide)

/-! ## C4 / C10: `Task.retry` -/

/-- C4.  On a Failed task, `retry` returns `true` exactly when
`retry_count < max_retries`, and then increments `retry_count`, clears
`error_message` and resets the status to Pending; with the budget
exhausted (`retry_count = max_retries`) it returns `false` and leaves
the task unchanged — still Failed. -/
theorem retry_on_failed_spec (t : Task) (hf : t.status = TaskStatus.failed) :
    (t.retry_count < t.max_retries →
      t.retry = (true, { t with retry_count := t.retry_count + 1,
                                status := TaskStatus.pending,
                                error_message := none }))
    ∧ (t.retry_count = t.max_retries →
        t.retry = (false, t) ∧ (t.retry).2.status = TaskStatus.failed) := by
  constructor
  · intro h
    simp [Task.retry, h]
  · intro h
    have hn : ¬ t.retry_count < t.max_retries := by omega
    constructor
    · simp [Task.retry, hn]
    · simp [Task.retry, hn, hf]

/-- Witness for C4 at a Failed task with exhausted budget. -/
theorem retry_on_failed_witness :
    exhaustedTask.retry = (false, exhaustedTask)
    ∧ (exhaustedTask.retry).2.status = TaskStatus.failed :=
  (retry_on_failed_spec exhaustedTask rfl).2 rfl

/-- C10.  `retry` never inspects the status: for a task in any status
with `retry_count < max_retries` it resets the status to Pending,
increments `retry_count`, clears `error_message` and returns `true`. -/
theorem retry_ignores_status (t : Task) (h : t.retry_count < t.max_retries) :
    t.retry = (true, { t with retry_count := t.retry_count + 1,
                              status := TaskStatus.pending,
                              error_message := none }) := by
  simp [Task.retry, h]

/-! ## String helper lemmas -/

theorem strData_append (a b : String) : (a ++ b).data = a.data ++ b.data := by
  cases a; cases b; rfl

theorem startsWithSub_self_append (s l : List Char) :
    startsWithSub s (s ++ l) = true := by
  induction s with
  | nil => rfl
  | cons c cs ih => simp [startsWithSub, ih]

theorem containsSub_nil_left (l : List Char) :
    containsSub ([] : List Char) l = true := by
  cases l <;> simp [containsSub, startsWithSub, List.isEmpty]

theorem containsSub_append (pre s post : List Char) :
    containsSub s (pre ++ s ++ post) = true := by
  induction pre with
  | nil =>
    cases s with
    | nil => simpa using containsSub_nil_left post
    | cons c cs =>
      show containsSub (c :: cs) ((c :: cs) ++ post) = true
      show (startsWithSub (c :: cs) ((c :: cs) ++ post) || _) = true
      rw [startsWithSub_self_append]
      rfl
  | cons p pre ih =>
    show (startsWithSub s (p :: (pre ++ s ++ post)) || containsSub s (pre ++ s ++ post)) = true
    rw [ih]
    exact Bool.or_true _

theorem strContains_middle (a nm b : String) :
    strContains (a ++ nm ++ b) nm = true := by
  unfold strContains
  rw [strData_append, strData_append]
  exact containsSub_append a.data nm.data b.data

theorem missing_msg_ne_empty (s : String) :
    ("Missing required parameters: " ++ s) ≠ "" := by
  intro h
  have hd : ("Missing required parameters: ").data ++ s.data = [] := by
    have := congrArg String.data h
    rw [strData_append] at this
    exact this
  rcases List.append_eq_nil.mp hd with ⟨h1, _⟩
  exact absurd h1 (by decide)

/-! ## C2: `BaseTool.run` error contract -/

/-- C2 (amended).  `run` is total — every failure becomes data, never an
exception: it always increments `usage_count`; with no missing required
parameter and a succeeding `execute` it increments `success_count` and
returns the result; a failing `execute` increments `failure_count` and
returns the exception text; a missing required parameter increments
`failure_count`, yields a non-empty error text, and `execute` is never
consulted (the result is independent of it).  The error text of a
failing `execute` is whatever `str(e)` is — possibly empty. -/
theorem run_contract (t : BaseTool) (kwargs : List (String × Val)) :
    ((BaseTool.run t kwargs).2.usage_count = t.usage_count + 1)
    ∧ (∀ v, missing_params t.parameters kwargs = [] → t.execute kwargs = Except.ok v →
        (BaseTool.run t kwargs).1
          = { success := true, result := some v, error := none, tool := t.name }
        ∧ (BaseTool.run t kwargs).2.success_count = t.success_count + 1
        ∧ (BaseTool.run t kwargs).2.failure_count = t.failure_count)
    ∧ (∀ e, missing_params t.parameters kwargs = [] → t.execute kwargs = Except.error e →
        (BaseTool.run t kwargs).1.success = false
        ∧ (BaseTool.run t kwargs).1.error = some e
        ∧ (BaseTool.run t kwargs).2.failure_count = t.failure_count + 1)
    ∧ (missing_params t.parameters kwargs ≠ [] →
        (BaseTool.run t kwargs).1.success = false
        ∧ (∃ m, (BaseTool.run t kwargs).1.error = some m ∧ m ≠ "")
        ∧ (BaseTool.run t kwargs).2.failure_count = t.failure_count + 1
        ∧ ∀ g, (BaseTool.run { t with execute := g } kwargs).1
                 = (BaseTool.run t kwargs).1) := by
  refine ⟨?_, ?_, ?_, ?_⟩
  · cases hm : missing_params t.parameters kwargs with
    | nil =>
      cases he : t.execute kwargs <;> simp [BaseTool.run, hm, he]
    | cons m ms => simp [BaseTool.run, hm]
  · intro v hm he
    simp [BaseTool.run, hm, he]
  · intro e hm he
    simp [BaseTool.run, hm, he]
  · intro hm
    cases hmc : missing_params t.parameters kwargs with
    | nil => exact absurd hmc hm
    | cons m ms =>
      refine ⟨by simp [BaseTool.run, hmc], ?_, by simp [BaseTool.run, hmc], ?_⟩
      · refine ⟨"Missing required parameters: " ++ String.intercalate (", ") (m :: ms),
          by simp [BaseTool.run, hmc], missing_msg_ne_empty _⟩
      · intro g
        have hmc2 : missing_params ({ t with execute := g } : BaseTool).parameters kwargs
            = m :: ms := hmc
        simp [BaseTool.run, hmc, hmc2]

/-- C2 counterexample to the non-emptiness of the error text: a tool
whose `execute` raises an exception with empty `str(e)` makes `run`
return `success := false` with an empty error string. -/
theorem run_error_can_be_empty :
    (BaseTool.run c2Tool []).1.success = false
    ∧ (BaseTool.run c2Tool []).1.error = some ("")
    ∧ ∀ s, (BaseTool.run c2Tool []).1.error = some s → s = "" := by
  refine ⟨rfl, rfl, ?_⟩
  intro s h
  have : some ("") = some s := by rw [← h]; rfl
  exact (Option.some.inj this).symm

/-- Witness for C2 at a tool with one required parameter and no
arguments: validation fails before `execute` runs. -/
theorem run_contract_witness :
    (BaseTool.run reqTool []).1.success = false
    ∧ (∃ m, (BaseTool.run reqTool []).1.error = some m ∧ m ≠ "")
    ∧ (BaseTool.run reqTool []).2.failure_count = reqTool.failure_count + 1
    ∧ ∀ g, (BaseTool.run { reqTool with execute := g } []).1
             = (BaseTool.run reqTool []).1 :=
  (run_contract reqTool []).2.2.2 (by decide)

/-! ## C6: tool counters -/

/-- C6 (amended).  Every `run` leaves all three counters at least as
large as before; `reset_stats` is the one operation that lowers them,
setting all three to 0. -/
theorem counters_monotone_except_reset :
    (∀ (t : BaseTool) (kwargs : List (String × Val)),
      t.usage_count ≤ (BaseTool.run t kwargs).2.usage_count
      ∧ t.success_count ≤ (BaseTool.run t kwargs).2.success_count
      ∧ t.failure_count ≤ (BaseTool.run t kwargs).2.failure_count)
    ∧ ∀ t : BaseTool,
        (BaseTool.reset_stats t).usage_count = 0
        ∧ (BaseTool.reset_stats t).success_count = 0
        ∧ (BaseTool.reset_stats t).failure_count = 0 := by
  constructor
  · intro t kwargs
    cases hm : missing_params t.parameters kwargs with
    | nil =>
      cases he : t.execute kwargs <;> simp [BaseTool.run, hm, he]
    | cons m ms =>
      simp [BaseTool.run, hm]
  · intro t
    exact ⟨rfl, rfl, rfl⟩

/-- C6 counterexample: after one successful `run`, `reset_stats` lowers
`usage_count` from 1 back to 0. -/
theorem reset_stats_lowers_counters :
    (BaseTool.run c6Tool []).2.usage_count = 1
    ∧ (BaseTool.reset_stats (BaseTool.run c6Tool []).2).usage_count = 0
    ∧ (BaseTool.reset_stats (BaseTool.run c6Tool []).2).usage_count
        < (BaseTool.run c6Tool []).2.usage_count := by
  refine ⟨rfl, rfl, ?_⟩
  show (0 : Nat) < 1
  decide

theorem retry_ignores_status_witness :
    cancelledTask.retry = (true, { cancelledTask with retry_count := 1, status := TaskStatus.pending, error_message := none }) :=
  retry_ignores_status cancelledTask (by decide)

/-! ## Orchestrator transition lemmas -/

theorem attempt_execute_events (beh : AgentBeh) (t : Task) (clk : Nat)
    (h : t.status = TaskStatus.pending) :
    ∀ ev ∈ (attempt_execute beh t clk).events, implEdge ev.1 ev.2 = true := by
  intro ev hev
  rcases hbeh : beh (t.start clk) with e | v
  · simp only [attempt_execute, hbeh] at hev
    split at hev <;> rw [h] at hev <;>
      simp only [List.mem_cons, List.not_mem_nil, or_false] at hev
    · rcases hev with h1 | h1 | h1 <;> subst h1 <;> rfl
    · rcases hev with h1 | h1 <;> subst h1 <;> rfl
  · simp only [attempt_execute, hbeh] at hev
    rw [h] at hev
    simp only [List.mem_cons, List.not_mem_nil, or_false] at hev
    rcases hev with h1 | h1 <;> subst h1 <;> rfl

theorem orch_execute_events (ags : List (String × AgentBeh)) (t : Task) (clk : Nat)
    (h : t.status = TaskStatus.pending) :
    ∀ ev ∈ (orch_execute_task ags t clk).events, implEdge ev.1 ev.2 = true := by
  intro ev hev
  cases hn : t.agent_name with
  | some nm =>
    cases ha : lookupAgent ags nm with
    | none =>
      simp only [orch_execute_task, hn, ha] at hev
      rw [h] at hev
      simp only [List.mem_cons, List.not_mem_nil, or_false] at hev
      subst hev; rfl
    | some beh =>
      simp only [orch_execute_task, hn, ha] at hev
      exact attempt_execute_events beh t clk h ev hev
  | none =>
    cases hags : ags with
    | nil =>
      simp only [orch_execute_task, hn, hags] at hev
      rw [h] at hev
      simp only [List.mem_cons, List.not_mem_nil, or_false] at hev
      subst hev; rfl
    | cons p rest =>
      obtain ⟨nm2, beh2⟩ := p
      simp only [orch_execute_task, hn, hags] at hev
      exact attempt_execute_events beh2 { t with agent_name := some nm2 } clk h ev hev

theorem dispatchStep_events (ags : List (String × AgentBeh)) (st : SysState) :
    ∀ ev ∈ (dispatchStep ags st).2, implEdge ev.1 ev.2 = true := by
  intro ev hev
  cases hn : st.queue.get_next_task with
  | none => simp only [dispatchStep, hn] at hev; exact absurd hev (List.not_mem_nil ev)
  | some t =>
    simp only [dispatchStep, hn] at hev
    exact orch_execute_events ags t st.clock (getNext_pending_mem hn).2 ev hev

theorem runTrace_events (ags : List (String × AgentBeh)) (acts : List Act) :
    ∀ st : SysState, ∀ ev ∈ (runTrace ags acts st).2, implEdge ev.1 ev.2 = true := by
  induction acts with
  | nil => intro st ev hev; exact absurd hev (List.not_mem_nil ev)
  | cons a rest ih =>
    intro st ev hev
    simp only [runTrace] at hev
    rw [List.mem_append] at hev
    rcases hev with h1 | h1
    · cases a with
      | submit t => exact absurd h1 (List.not_mem_nil ev)
      | dispatch => exact dispatchStep_events ags st ev h1
    · exact ih _ ev h1

/-! ## C3: task status transitions -/

/-- C3 (amended).  Over every schedule of submissions and dispatch-loop
iterations, every observed status transition lies in the code's edge
set: the spec's `Pending → InProgress → (Completed | Failed |
Cancelled)` edges, `Failed → Pending`, **plus the direct
`Pending → Failed`** taken when agent resolution fails.  (In
particular, no transition leaves Completed or Cancelled, and none
enters InProgress from anywhere but Pending.)  The `Failed → Pending`
edge arises only from `Task.retry`, which refuses whenever
`retry_count` has reached `max_retries`. -/
theorem transitions_follow_code_edges :
    (∀ (ags : List (String × AgentBeh)) (acts : List Act) (st : SysState),
      ∀ ev ∈ (runTrace ags acts st).2, implEdge ev.1 ev.2 = true)
    ∧ (∀ t : Task, t.max_retries ≤ t.retry_count → t.retry = (false, t)) := by
  constructor
  · intro ags acts st ev hev
    exact runTrace_events ags acts st ev hev
  · intro t h
    have hn : ¬ t.retry_count < t.max_retries := by omega
    simp [Task.retry, hn]

/-- C3 counterexample to the spec's edge set: dispatching a pending task
whose agent is unregistered produces the transition `Pending → Failed`
directly, which is not an edge of the §4.6 state machine. -/
theorem pending_to_failed_observed :
    (runTrace ([] : List (String × AgentBeh)) [Act.dispatch] ⟨⟨[cxTask]⟩, 0⟩).2
      = [((TaskStatus.pending), TaskStatus.failed)]
    ∧ specEdge TaskStatus.pending TaskStatus.failed = false :=
  ⟨rfl, rfl⟩

/-- Witness for C3 (amended) at the unregistered-agent trace and at an
exhausted retry budget. -/
theorem transitions_witness :
    implEdge TaskStatus.pending TaskStatus.failed = true
    ∧ exhaustedTask.retry = (false, exhaustedTask) := by
  constructor
  · exact transitions_follow_code_edges.1 [] [Act.dispatch] ⟨⟨[cxTask]⟩, 0⟩
      ((TaskStatus.pending), TaskStatus.failed)
      (by show (TaskStatus.pending, TaskStatus.failed)
            ∈ [((TaskStatus.pending), TaskStatus.failed)]
          exact List.mem_singleton.mpr rfl)
  · exact transitions_follow_code_edges.2 exhaustedTask (by decide)

/-! ## C5: timestamps -/

/-- C5 (amended).  `started_at` is (re)assigned by every `start` — once
per attempt, on each transition out of Pending — and `completed_at` by
every `complete` / `fail` / `cancel` — once per attempt, on each
terminal transition; no other lifecycle operation touches either field.
Across a retry cycle the next attempt's `start` / `fail` overwrite the
previous values, so "exactly once" holds only for tasks that are never
retried. -/
theorem timestamps_per_operation (t : Task) (out : Val) (msg : String) (now : Nat) :
    ((t.start now).started_at = some now ∧ (t.start now).completed_at = t.completed_at)
    ∧ ((t.complete out now).completed_at = some now
        ∧ (t.complete out now).started_at = t.started_at)
    ∧ ((t.fail msg now).completed_at = some now ∧ (t.fail msg now).started_at = t.started_at)
    ∧ ((t.cancel now).completed_at = some now ∧ (t.cancel now).started_at = t.started_at)
    ∧ ((t.retry).2.started_at = t.started_at ∧ (t.retry).2.completed_at = t.completed_at) := by
  refine ⟨⟨rfl, rfl⟩, ⟨rfl, rfl⟩, ⟨rfl, rfl⟩, ⟨rfl, rfl⟩, ?_, ?_⟩ <;>
    (unfold Task.retry; split <;> rfl)

/-- C5 counterexample to "assigned exactly once": with a failing agent
and one retry, the second dispatch overwrites both `started_at`
(`some 0` becomes `some 2`) and `completed_at` (`some 1` becomes
`some 3`) of the same task. -/
theorem timestamps_overwritten_on_retry :
    ((runTrace ags5 [Act.dispatch] st5).1.queue.tasks.map Task.started_at = [some 0])
    ∧ ((runTrace ags5 [Act.dispatch, Act.dispatch] st5).1.queue.tasks.map Task.started_at
        = [some 2])
    ∧ ((runTrace ags5 [Act.dispatch] st5).1.queue.tasks.map Task.completed_at = [some 1])
    ∧ ((runTrace ags5 [Act.dispatch, Act.dispatch] st5).1.queue.tasks.map Task.completed_at
        = [some 3]) :=
  ⟨rfl, rfl, rfl, rfl⟩

/-! ## C7: unknown agent -/

/-- C7.  Executing a task whose `agent_name` is not registered fails the
task directly: the status becomes Failed, the error message is
`Agent '<name>' not found` (so it mentions the unknown name),
`retry_count` is untouched, and the task is not resubmitted. -/
theorem unknown_agent_fails_without_retry (ags : List (String × AgentBeh)) (nm : String)
    (t : Task) (clk : Nat) (hn : t.agent_name = some nm)
    (ha : lookupAgent ags nm = none) :
    (orch_execute_task ags t clk).task.status = TaskStatus.failed
    ∧ (orch_execute_task ags t clk).task.error_message
        = some ("Agent '" ++ nm ++ "' not found")
    ∧ strContains ("Agent '" ++ nm ++ "' not found") nm = true
    ∧ (orch_execute_task ags t clk).task.retry_count = t.retry_count
    ∧ (orch_execute_task ags t clk).resubmitted = false := by
  refine ⟨?_, ?_, ?_, ?_, ?_⟩
  · simp [orch_execute_task, hn, ha, Task.fail]
  · simp [orch_execute_task, hn, ha, Task.fail]
  · exact strContains_middle ("Agent '") nm ("' not found")
  · simp [orch_execute_task, hn, ha, Task.fail]
  · simp [orch_execute_task, hn, ha]

/-! ## C8: intent selection -/

theorem foldl_count_add {α : Type} (p : α → Bool) (c : Nat) (l : List α) :
    ∀ n : Nat, l.foldl (fun s k => if p k then s + c else s) n
      = n + c * (l.filter p).length := by
  induction l with
  | nil => intro n; simp
  | cons a l ih =>
    intro n
    cases hp : p a with
    | true =>
      simp only [List.foldl_cons, hp, if_true, List.filter_cons, ih]
      simp only [hp, if_true, List.length_cons]
      ring
    | false =>
      simp only [List.foldl_cons, hp, List.filter_cons, ih]
      simp [hp]

theorem intent_score_eq_counts (rx : String → String → Bool) (ml : String) (d : IntentDef) :
    intent_score rx ml d
      = (d.keywords.filter (fun k => strContains ml k)).length
        + 2 * (d.patterns.filter (fun p => rx p ml)).length := by
  unfold intent_score
  rw [foldl_count_add (fun k => strContains ml k) 1 d.keywords 0,
      foldl_count_add (fun p => rx p ml) 2 d.patterns]
  omega

theorem best_fold_spec (f : IntentDef → Nat) (l : List IntentDef) :
    ∀ b : Option String × Nat,
      (l.foldl (bestStep f) b = b ∧ ∀ d ∈ l, f d ≤ b.2)
      ∨ (∃ pre d post, l = pre ++ d :: post
          ∧ l.foldl (bestStep f) b = (some d.name, f d)
          ∧ b.2 < f d
          ∧ (∀ e ∈ pre, f e < f d)
          ∧ (∀ e ∈ post, f e ≤ f d)) := by
  induction l with
  | nil =>
    intro b
    left
    exact ⟨rfl, by intro d hd; exact absurd hd (List.not_mem_nil d)⟩
  | cons a l ih =>
    intro b
    by_cases h : b.2 < f a
    · have hstep : bestStep f b a = (some a.name, f a) := by
        unfold bestStep; rw [if_pos h]
      rcases ih ((some a.name, f a)) with ⟨heq, hall⟩ | ⟨pre, d, post, hsplit, heq, hlt, hpre, hpost⟩
      · right
        refine ⟨[], a, l, rfl, ?_, h, ?_, ?_⟩
        · rw [List.foldl_cons, hstep]; exact heq
        · intro e he; exact absurd he (List.not_mem_nil e)
        · intro e he; exact hall e he
      · right
        have hfa : f a < f d := hlt
        refine ⟨a :: pre, d, post, by simp [hsplit], ?_, by omega, ?_, hpost⟩
        · rw [List.foldl_cons, hstep]; exact heq
        · intro e he
          rcases List.mem_cons.mp he with h1 | h1
          · rw [h1]; exact hfa
          · exact hpre e h1
    · have hstep : bestStep f b a = b := by
        unfold bestStep; rw [if_neg h]
      rcases ih b with ⟨heq, hall⟩ | ⟨pre, d, post, hsplit, heq, hlt, hpre, hpost⟩
      · left
        constructor
        · rw [List.foldl_cons, hstep]; exact heq
        · intro e he
          rcases List.mem_cons.mp he with h1 | h1
          · rw [h1]; omega
          · exact hall e h1
      · right
        refine ⟨a :: pre, d, post, by simp [hsplit], ?_, hlt, ?_, hpost⟩
        · rw [List.foldl_cons, hstep]; exact heq
        · intro e he
          rcases List.mem_cons.mp he with h1 | h1
          · rw [h1]; omega
          · exact hpre e h1

theorem detect_intent_keywords_eq (rx : String → String → Bool) (intents : List IntentDef)
    (msg : String) :
    detect_intent_keywords rx intents msg
      = (if 0 < (intents.foldl (bestStep (intent_score rx (strLower msg)))
                  ((none : Option String), 0)).2
         then (intents.foldl (bestStep (intent_score rx (strLower msg)))
                ((none : Option String), 0)).1
         else none) := rfl

/-- C8.  `_detect_intent_keywords` scores every registered intent as
(keywords contained in the lowered message) + 2 × (patterns matching
it); it returns `None` exactly when every intent scores 0, and
otherwise returns the first-declared intent of maximal score: every
earlier intent scores strictly less and every later one at most as
much. -/
theorem intent_selection_spec (rx : String → String → Bool) (intents : List IntentDef)
    (msg : String) :
    (∀ d : IntentDef, intent_score rx (strLower msg) d
        = (d.keywords.filter (fun k => strContains (strLower msg) k)).length
          + 2 * (d.patterns.filter (fun p => rx p (strLower msg))).length)
    ∧ (detect_intent_keywords rx intents msg = none
        ↔ ∀ d ∈ intents, intent_score rx (strLower msg) d = 0)
    ∧ (∀ nm, detect_intent_keywords rx intents msg = some nm →
        ∃ pre d post, intents = pre ++ d :: post ∧ d.name = nm
          ∧ 0 < intent_score rx (strLower msg) d
          ∧ (∀ e ∈ pre, intent_score rx (strLower msg) e < intent_score rx (strLower msg) d)
          ∧ (∀ e ∈ post, intent_score rx (strLower msg) e ≤ intent_score rx (strLower msg) d)) := by
  refine ⟨fun d => intent_score_eq_counts rx (strLower msg) d, ?_, ?_⟩
  · rw [detect_intent_keywords_eq]
    rcases best_fold_spec (intent_score rx (strLower msg)) intents ((none, 0))
      with ⟨heq, hall⟩ | ⟨pre, d, post, hsplit, heq, hlt, hpre, hpost⟩
    · rw [heq]
      refine iff_of_true (by rfl) ?_
      intro d hd
      have := hall d hd
      omega
    · rw [heq]
      have hpos : (0 : Nat) < intent_score rx (strLower msg) d := hlt
      refine iff_of_false ?_ ?_
      · simp [hpos]
      · intro hall2
        have : intent_score rx (strLower msg) d = 0 := by
          refine hall2 d ?_
          rw [hsplit]
          exact List.mem_append.mpr (Or.inr (List.mem_cons_self d post))
        omega
  · intro nm h
    rw [detect_intent_keywords_eq] at h
    rcases best_fold_spec (intent_score rx (strLower msg)) intents ((none, 0))
      with ⟨heq, hall⟩ | ⟨pre, d, post, hsplit, heq, hlt, hpre, hpost⟩
    · rw [heq] at h
      exact absurd h (by simp)
    · rw [heq] at h
      have hpos : (0 : Nat) < intent_score rx (strLower msg) d := hlt
      rw [if_pos hpos] at h
      have hname : d.name = nm := Option.some.inj h
      exact ⟨pre, d, post, hsplit, hname, hpos, hpre, hpost⟩

/-- Witness for C8: on the message `toplantı planla` with a no-match
regex oracle, the calendar intent is selected over the full
`INTENT_PATTERNS` table, and the decomposition exhibits it as the
first-declared maximal-score intent. -/
theorem intent_selection_witness :
    ∃ pre d post, intent_patterns = pre ++ d :: post ∧ d.name = "calendar"
      ∧ 0 < intent_score rx0 (strLower ("toplantı planla")) d
      ∧ (∀ e ∈ pre, intent_score rx0 (strLower ("toplantı planla")) e
            < intent_score rx0 (strLower ("toplantı planla")) d)
      ∧ (∀ e ∈ post, intent_score rx0 (strLower ("toplantı planla")) e
            ≤ intent_score rx0 (strLower ("toplantı planla")) d) :=
  (intent_selection_spec rx0 intent_patterns ("toplantı planla")).2.2 ("calendar") (by decide)

/-! ## C9: missing calendar slot defers the dispatch -/

theorem list_append_middle_isEmpty {α : Type} (A : List α) (x : α) (B C : List α) :
    (A ++ (x :: B) ++ C).isEmpty = false := by
  cases A <;> simp [List.isEmpty]

theorem check_missing_time (rx : RegexEngine) (msg : String) (hf : Bool)
    (htime : (extract_event_details rx msg).time = none) :
    ∃ q, check_missing_details rx ("calendar_workflow") msg hf = some q := by
  unfold check_missing_details
  simp only [beq_self_eq_true, if_true, htime, Option.isNone_none]
  rw [list_append_middle_isEmpty]
  simp only [Bool.not_false, if_true]
  exact ⟨_, rfl⟩

/-- C9.  For any message that the intent router scores as `calendar`
(with the calendar workflow registered) while the time slot cannot be
extracted — and that is not a current-date/time question, which the
source answers earlier via the `current_datetime` tool — `process`
returns the clarifying question produced by `_check_missing_details`
and leaves the whole tool map untouched: the calendar capability is not
invoked, so its `usage_count` and `failure_count` are unchanged. -/
theorem missing_time_defers_calendar (ag : MasterAgent) (rx : RegexEngine) (msg : String)
    (ctx : Context)
    (hdt : is_datetime_question msg = false)
    (hint : detect_intent_keywords rx.search intent_patterns msg = some ("calendar"))
    (htool : (ag.tool_map.lookup ("calendar_workflow")).isSome = true)
    (htime : (extract_event_details rx msg).time = none) :
    ∃ q, check_missing_details rx ("calendar_workflow") msg (ctx.file_data.isSome) = some q
      ∧ MasterAgent.process ag rx msg ctx = (q, { ag with current_model := ctx.model })
      ∧ ({ ag with current_model := ctx.model } : MasterAgent).tool_map = ag.tool_map := by
  obtain ⟨q, hq⟩ := check_missing_time rx msg (ctx.file_data.isSome) htime
  refine ⟨q, hq, ?_, rfl⟩
  have hdet : MasterAgent.detect_intent { ag with current_model := ctx.model } rx msg
      = some (("calendar_workflow"), calendarIntent) := by
    have hfind : intent_patterns.find? (fun d => d.name == ("calendar" : String))
        = some calendarIntent := rfl
    have hs : ("calendar" ++ "_workflow" : String) = "calendar_workflow" := rfl
    unfold MasterAgent.detect_intent
    simp only [hint, hfind, hs, htool, if_true]
  unfold MasterAgent.process
  simp only [hdt, Bool.false_eq_true, if_false, hdet, hq]

/-- Witness for C9: the scheduling-style message `toplantı planla`
(no time given) against an agent holding the calendar workflow tool. -/
theorem missing_time_defers_calendar_witness :
    ∃ q, check_missing_details rxNone ("calendar_workflow") ("toplantı planla")
          ((wCtx.file_data).isSome) = some q
      ∧ MasterAgent.process wAgent rxNone ("toplantı planla") wCtx
          = (q, { wAgent with current_model := wCtx.model })
      ∧ ({ wAgent with current_model := wCtx.model } : MasterAgent).tool_map
          = wAgent.tool_map :=
  missing_time_defers_calendar wAgent rxNone ("toplantı planla") wCtx
    (by decide) (by decide) (by decide) rfl

/-- Witness for C7 at the concrete `ghost` task with no registered
agents. -/
theorem unknown_agent_witness :
    (orch_execute_task [] cxTask 0).task.status = TaskStatus.failed
    ∧ (orch_execute_task [] cxTask 0).task.error_message
        = some ("Agent '" ++ "ghost" ++ "' not found")
    ∧ strContains ("Agent '" ++ "ghost" ++ "' not found") ("ghost") = true
    ∧ (orch_execute_task [] cxTask 0).task.retry_count = cxTask.retry_count
    ∧ (orch_execute_task [] cxTask 0).resubmitted = false :=
  unknown_agent_fails_without_retry [] ("ghost") cxTask 0 rfl rfl

end MindCubes
